import Mathlib

/-!
Shallow embedding of the credential & token lifecycle subsystem of the
`sparks-api` repository (TypeScript / Express / Mongoose), covering:

* the account record (`userSchema` in `src/database/models/user/user.model.ts`),
  with bcrypt password values modelled symbolically;
* the user-service operations `updateUser`, `findUser` (`src/services/user.service.ts`),
  mongoose `findByIdAndUpdate` semantics included (it fires neither the `save`
  nor the `updateOne` pre-hook registered on the schema);
* the auth-service operations `signIn` and `resetPassword`
  (`src/services/user.service.ts`), together with the schema helper
  `generatePasswordResetToken` and the pre-save hook `hashPassword`
  (`helpers`, file `part_004`);
* the jsonwebtoken sign/verify pair used by `generateJWT` / `refreshJWT` /
  `verifyJWT` and by the auth-guard middleware, modelled symbolically on
  structured tokens;
* the auth-guard middleware (`src/middlewares/auth-guard.middleware.ts`),
  including its exact token-extraction step
  `req.headers.authorization?.replace('Bearer ', '')` — JavaScript
  `String.replace` with a string pattern deletes the first occurrence only;
* the error taxonomy (`src/utils/errors/operation.error.ts`), the mapping
  `errorToRestStatus` (`utils/errors` index, file `part_003`) and the
  error-handler middleware (`src/middlewares/error-handler.middleware.ts`).
-/

/-- Symbolic string values, distinguishing plaintext literals from bcrypt
digests. `bhash v salt` stands for `bcrypt.hash(v, salt)`; a bcrypt digest is
never equal to any plaintext literal, which models the one-way property. -/
inductive SVal
  | lit (s : String)
  | bhash (v : SVal) (salt : Nat)
deriving DecidableEq

/-- `bcrypt.compare(plaintext, stored)`: true exactly when `stored` is a bcrypt
digest of the plaintext (the salt is read back from the digest itself). -/
def bcryptCompare (plaintext : String) (stored : SVal) : Bool :=
  match stored with
  | SVal.bhash v _ => if v = SVal.lit plaintext then true else false
  | SVal.lit _ => false

/-- The account record persisted by `userSchema`
(`src/database/models/user/user.model.ts`). The field defaults mirror the
schema defaults (`emailVerified: false`, token fields and `deletedAt`
defaulting to `null`). `profilePicture` and the store-maintained timestamps
are omitted; no claim mentions them. Dates are epoch milliseconds. -/
structure UserRec where
  id : Nat
  firstName : String
  lastName : String
  username : String
  email : String
  password : SVal
  emailVerified : Bool := false
  emailVerificationToken : Option String := none
  emailVerificationTokenExpiresAt : Option Nat := none
  passwordResetToken : Option String := none
  passwordResetTokenExpiresAt : Option Nat := none
  deletedAt : Option Nat := none
deriving DecidableEq

/-- The abstract document store backing `UserModel`. -/
abbrev Store : Type := List UserRec

/-- Pre-save hook `hashPassword` (file `part_004`, registered by
`userSchema.pre("save", hashPassword)`): if the `password` path was not
modified the document is saved unchanged, otherwise the current value of the
field — whatever string it holds — is replaced by its bcrypt digest. -/
def hashPassword (passwordModified : Bool) (salt : Nat) (u : UserRec) : UserRec :=
  if passwordModified then { u with password := SVal.bhash u.password salt } else u

/-- `IUserUpdateDTO` (`src/@types/user.type.ts`): every field optional. -/
structure IUserUpdateDTO where
  username : Option String := none
  firstName : Option String := none
  lastName : Option String := none
  email : Option String := none
  password : Option String := none

/-- Field-wise `$set` applied by mongoose `findByIdAndUpdate` to the matched
document: provided fields overwrite, absent fields are kept. The raw
caller-supplied password string is written as a plaintext literal, because
`findByIdAndUpdate` issues a `findOneAndUpdate` and therefore fires neither
the `save` document middleware nor the `updateOne` query middleware — no
hashing hook runs on this path. -/
def applyUserUpdate (u : UserRec) (d : IUserUpdateDTO) : UserRec :=
  { u with
    username := d.username.getD u.username
    firstName := d.firstName.getD u.firstName
    lastName := d.lastName.getD u.lastName
    email := d.email.getD u.email
    password := match d.password with
                | some p => SVal.lit p
                | none => u.password }

/-- Replace the document with the given `_id` in the store. -/
def updateById (store : Store) (userId : Nat) (f : UserRec → UserRec) : Store :=
  store.map (fun u => if u.id == userId then f u else u)

/-- `updateUser` (`src/services/user.service.ts`, lines 123-136):
`UserModel.findByIdAndUpdate(userId, userInput, { new: true })`. The result
modelled here is the store after the update; the `new: true` return value is
the updated record itself. -/
def updateUser (userId : Nat) (userInput : IUserUpdateDTO) (store : Store) : Store :=
  updateById store userId (fun u => applyUserUpdate u userInput)

/-- `findUser` (`src/services/user.service.ts`):
`UserModel.findOne({ _id: userId, deletedAt: null })`. -/
def findUser (store : Store) (userId : Nat) : Option UserRec :=
  store.find? (fun u => u.id == userId && u.deletedAt == none)

/-- Data carried by an `OperationError` instance
(`src/utils/errors/operation.error.ts`): `this.name`, `this.message`,
`this.httpStatus`. -/
structure OperationErrorData where
  name : String
  message : String
  httpStatus : Nat
deriving DecidableEq

/-- `new AuthenticationError(message)` — status 401. -/
def authenticationError (message : String) : OperationErrorData :=
  { name := "AuthenticationError", message := message, httpStatus := 401 }

/-- `new AuthorizationError(message)` — status 403. -/
def authorizationError (message : String) : OperationErrorData :=
  { name := "AuthorizationError", message := message, httpStatus := 403 }

/-- `new DatabaseError(message)` — status 500 (the base-class default). -/
def databaseError (message : String) : OperationErrorData :=
  { name := "DatabaseError", message := message, httpStatus := 500 }

/-- `new ValidationError(message)` — status 400. -/
def validationError (message : String) : OperationErrorData :=
  { name := "ValidationError", message := message, httpStatus := 400 }

/-- `new SemanticError(message)` — status 400. -/
def semanticError (message : String) : OperationErrorData :=
  { name := "SemanticError", message := message, httpStatus := 400 }

/-- `new NotFoundError(message)` — status 404. -/
def notFoundError (message : String) : OperationErrorData :=
  { name := "NotFoundError", message := message, httpStatus := 404 }

/-- `new ConflictError(message)` — status 409. -/
def conflictError (message : String) : OperationErrorData :=
  { name := "ConflictError", message := message, httpStatus := 409 }

/-- `new InternalError(message)` — status 500. -/
def internalError (message : String) : OperationErrorData :=
  { name := "InternalError", message := message, httpStatus := 500 }

/-- `new HttpMethodNotAllowedError(message)` — status 405. -/
def httpMethodNotAllowedError (message : String) : OperationErrorData :=
  { name := "HttpMethodNotAllowedError", message := message, httpStatus := 405 }

/-- Outcome of `signIn`: the resolved user document, or a thrown
`AuthenticationError`. (The code also executes `delete user.password` on the
returned in-memory copy before returning; this does not touch the store and
is not modelled.) -/
inductive SignInResult
  | ok (user : UserRec)
  | err (e : OperationErrorData)
deriving DecidableEq

/-- `signIn` (`src/services/user.service.ts`, lines 172-179):
`UserModel.findOne({ email }).select('+password')` — note: no `deletedAt`
filter, but the `select: false` password field *is* projected in, so
`comparePassword` runs against the stored digest — then throws
`AuthenticationError('User not found')` or
`AuthenticationError('Invalid password')`. -/
def signIn (store : Store) (email : String) (password : String) : SignInResult :=
  match store.find? (fun u => u.email == email) with
  | none => SignInResult.err (authenticationError "User not found")
  | some u =>
    if bcryptCompare password u.password then SignInResult.ok u
    else SignInResult.err (authenticationError "Invalid password")

/-- `generatePasswordResetToken` (file `part_004`, lines 34-40): stores a
fresh random token (passed in here, since randomness is external) and sets
the expiry to `Date.now() + 3600000` ms. -/
def generatePasswordResetToken (token : String) (now : Nat) (u : UserRec) : UserRec :=
  { u with passwordResetToken := some token
           passwordResetTokenExpiresAt := some (now + 3600000) }

/-- `generateEmailVerificationToken` (file `part_004`, lines 101-107): same
shape as the reset-token helper, on the email-verification pair. -/
def generateEmailVerificationToken (token : String) (now : Nat) (u : UserRec) : UserRec :=
  { u with emailVerificationToken := some token
           emailVerificationTokenExpiresAt := some (now + 3600000) }

/-- `bcrypt.compare(data, hash)` where the hash argument is read from a
document path that the query's projection may not have selected: node-bcrypt
rejects with `Error('data and hash arguments required')` when the hash is
`undefined`, and only compares when the path was actually selected. -/
def bcryptCompareOnDoc (plaintext : String) (selectedPassword : Option SVal) :
    Except String Bool :=
  match selectedPassword with
  | none => Except.error "data and hash arguments required"
  | some h => Except.ok (bcryptCompare plaintext h)

/-- Outcome of `resetPassword`: the store after a successful save, a thrown
`AuthenticationError`, or a plain `Error` escaping the service (such as the
bcrypt invocation failure), which the error middleware maps to 500. -/
inductive ResetOutcome
  | ok (store : Store)
  | err (e : OperationErrorData)
  | raisedError (message : String)
deriving DecidableEq

/-- `resetPassword` (`src/services/user.service.ts`, lines 245-255):
`UserModel.findOne({ passwordResetToken })` — note: unlike `signIn`, this
query does **not** chain `.select('+password')`, and the schema marks
`password` as `select: false`, so the hydrated document's password path is
`undefined`. The subsequent `user.comparePassword(currentPassword)` therefore
calls `bcrypt.compare(currentPassword, undefined)`, which rejects — modelled
by `bcryptCompareOnDoc` applied to an unselected (`none`) password. The rest
of the source is embedded in the (consequently unreachable) arms:

* `user.password = newPassword;`
* `user.passwordResetToken = undefined;`
* `user.passwordResetToken = undefined;` — the same assignment appears twice
  in the source; `passwordResetTokenExpiresAt` is never assigned;
* `await user.save();` — which runs the `hashPassword` pre-save hook with the
  `password` path modified.

No field holding a time is ever read: the operation takes no clock. -/
def resetPassword (store : Store) (currentPassword : String) (newPassword : String)
    (passwordResetToken : String) (salt : Nat) : ResetOutcome :=
  match store.find? (fun u => u.passwordResetToken == some passwordResetToken) with
  | none => ResetOutcome.err (authenticationError "Invalid password reset token")
  | some u =>
    match bcryptCompareOnDoc currentPassword none with
    | Except.error m => ResetOutcome.raisedError m
    | Except.ok true =>
      let assigned := { u with password := SVal.lit newPassword, passwordResetToken := none }
      let saved := hashPassword true salt assigned
      ResetOutcome.ok (updateById store u.id (fun _ => saved))
    | Except.ok false => ResetOutcome.err (authenticationError "Invalid password")

/-- The pair-lockstep invariant on one account record: the reset token is
`null` exactly when its expiry is `null`, and likewise for the
email-verification pair. -/
def tokenPairInvariant (u : UserRec) : Prop :=
  (u.passwordResetToken = none ↔ u.passwordResetTokenExpiresAt = none) ∧
  (u.emailVerificationToken = none ↔ u.emailVerificationTokenExpiresAt = none)

/-- The JWT claims produced by `jwt.sign({ _id }, secret, { expiresIn })`:
the single custom claim `_id` (here `sub`) plus the registered claims `iat`
and `exp = iat + expiresIn` that the library adds. Times are epoch seconds. -/
structure JwtPayload where
  sub : Nat
  iat : Nat
  exp : Nat
deriving DecidableEq

/-- A signed token, modelled symbolically: the payload together with the
secret whose HMAC signature it carries. A token is tamper-evident by
construction; `jwt.verify` with a different secret rejects it. -/
structure SignedToken where
  payload : JwtPayload
  signedWith : String
deriving DecidableEq

/-- `jwt.sign({ _id: sub }, secret, { expiresIn })` at clock time `now`. -/
def jwtSign (sub : Nat) (secret : String) (expiresInSec : Nat) (now : Nat) : SignedToken :=
  { payload := { sub := sub, iat := now, exp := now + expiresInSec }
    signedWith := secret }

/-- Outcomes of `jwt.verify`: the decoded `_id`, a thrown `TokenExpiredError`,
or a thrown `JsonWebTokenError` (bad signature / structurally wrong). -/
inductive JwtVerifyResult
  | ok (sub : Nat)
  | tokenExpired
  | malformed
deriving DecidableEq

/-- `jwt.verify(token, secret)` at clock time `now`: signature first, then
expiry — jsonwebtoken throws `TokenExpiredError` when `now >= exp` (zero
clock tolerance). -/
def jwtVerify (token : SignedToken) (secret : String) (now : Nat) : JwtVerifyResult :=
  if token.signedWith ≠ secret then JwtVerifyResult.malformed
  else if token.payload.exp ≤ now then JwtVerifyResult.tokenExpired
  else JwtVerifyResult.ok token.payload.sub

/-- The `expiresIn` string `"1d"`, in seconds. -/
def oneDayInSeconds : Nat := 86400

/-- Default `expiresIn` of `generateJWT` (file `part_004`, line 47): `"1d"`. -/
def generateJWTDefaultExpiresIn : Nat := oneDayInSeconds

/-- Default `expiresIn` of `refreshJWT` (file `part_004`, line 61): `"1d"`. -/
def refreshJWTDefaultExpiresIn : Nat := oneDayInSeconds

/-- `generateJWT` (file `part_004`, lines 47-54):
`jwt.sign({ _id: this._id }, process.env.JWT_SECRET, { expiresIn })`. -/
def generateJWT (u : UserRec) (secret : String) (now : Nat) (expiresInSec : Nat) : SignedToken :=
  jwtSign u.id secret expiresInSec now

/-- `refreshJWT` (file `part_004`, lines 61-68):
`jwt.sign({ _id: this._id }, process.env.JWT_SECRET, { expiresIn })`. -/
def refreshJWT (u : UserRec) (secret : String) (now : Nat) (expiresInSec : Nat) : SignedToken :=
  jwtSign u.id secret expiresInSec now

/-- The character list of the pattern string `'Bearer '`. -/
def bearerMarker : List Char := "Bearer ".toList

/-- JavaScript `String.prototype.replace(pat, '')` for a non-empty string
pattern: delete the first (leftmost) occurrence of `pat`, leave the string
unchanged when `pat` does not occur. -/
def dropFirstOccur (pat : List Char) : List Char → List Char
  | [] => []
  | c :: rest =>
    if List.take pat.length (c :: rest) = pat then List.drop pat.length (c :: rest)
    else c :: dropFirstOccur pat rest

/-- Whether `pat` occurs as a contiguous sublist. -/
def occursSub (pat : List Char) : List Char → Bool
  | [] => if pat = [] then true else false
  | c :: rest =>
    if List.take pat.length (c :: rest) = pat then true else occursSub pat rest

/-- The auth guard's extraction expression `h.replace('Bearer ', '')`. -/
def stripBearer (h : String) : String :=
  String.mk (dropFirstOccur bearerMarker h.toList)

/-- The request data the auth guard can see: the `Authorization` header and
the `jwt` cookie (populated by `cookie-parser`; set by the sign-in/sign-up/
refresh controllers). -/
structure AuthRequest where
  authorization : Option String
  cookieJwt : Option String
deriving DecidableEq

/-- `const token = req.headers.authorization?.replace('Bearer ', '')`
followed by the falsy check `if (!token)`: `none` when the header is absent
or the remainder is the empty string. The `jwt` cookie is never read. -/
def extractToken (req : AuthRequest) : Option String :=
  match req.authorization with
  | none => none
  | some h => if stripBearer h = "" then none else some (stripBearer h)

/-- Observable outcome of the auth-guard middleware: an early
`res.status(status).json({ message })` response, or `next()` after storing
the looked-up account (possibly `null`) in `res.locals.user`. -/
inductive GateOutcome
  | reject (status : Nat) (message : String)
  | next (user : Option UserRec)
deriving DecidableEq

/-- `authGuard` (`src/middlewares/auth-guard.middleware.ts`, lines 15-39).
`verifyTok` stands for `jwt.verify(token, process.env.JWT_SECRET)` on the
wire-format token string. On successful verification the code runs
`res.locals['user'] = await UserService.findUser(decodedToken._id)` and calls
`next()` — also when the lookup returns `null`. (The `next(err)` branch for
errors outside the two jsonwebtoken classes cannot arise here: the pure
lookup does not throw.) -/
def authGuard (verifyTok : String → JwtVerifyResult) (store : Store) (req : AuthRequest) :
    GateOutcome :=
  match extractToken req with
  | none => GateOutcome.reject 401 "Unauthorized"
  | some token =>
    match verifyTok token with
    | JwtVerifyResult.ok sub => GateOutcome.next (findUser store sub)
    | JwtVerifyResult.tokenExpired => GateOutcome.reject 401 "Token expired"
    | JwtVerifyResult.malformed => GateOutcome.reject 401 "Unauthorized"

/-- The errors distinguishable by `errorToRestStatus` (file `part_003`):
`OperationError` instances, `TypeError`, mongoose `Error.ValidationError`,
`URIError`, and everything else. -/
inductive JsError
  | operational (e : OperationErrorData)
  | typeError (message : String)
  | dbValidationError (message : String)
  | uriError (message : String)
  | other (message : String)
deriving DecidableEq

/-- `err.message`. -/
def errMessage : JsError → String
  | JsError.operational e => e.message
  | JsError.typeError m => m
  | JsError.dbValidationError m => m
  | JsError.uriError m => m
  | JsError.other m => m

/-- `errorToRestStatus` (file `part_003`, lines 11-39): an `OperationError`
keeps its own `httpStatus`; `TypeError`, mongoose validation errors and
`URIError` map to 400; everything else falls through to 500. -/
def errorToRestStatus : JsError → Nat
  | JsError.operational e => e.httpStatus
  | JsError.typeError _ => 400
  | JsError.dbValidationError _ => 400
  | JsError.uriError _ => 400
  | JsError.other _ => 500

/-- `errorHandler` (`src/middlewares/error-handler.middleware.ts`, lines
5-18): responds with `errorToRestStatus(err)` and with `err.message` unless
the status is 500, in which case the generic text is sent. -/
def errorHandler (err : JsError) : Nat × String :=
  let status := errorToRestStatus err
  let message := if status ≠ 500 then errMessage err else "Internal server error"
  (status, message)

/-! Concrete sample data used to evaluate the embedded operations. -/

/-- A stored account whose password field holds a bcrypt digest. -/
def adaUser : UserRec :=
  { id := 1, firstName := "Ada", lastName := "Lovelace", username := "ada",
    email := "ada@example.com", password := SVal.bhash (SVal.lit "OldStr0ngPass") 10 }

/-- A soft-deleted account (`deletedAt` non-null) with a correctly hashed
password. -/
def bobDeleted : UserRec :=
  { id := 2, firstName := "Bob", lastName := "Builder", username := "bob",
    email := "bob@example.com", password := SVal.bhash (SVal.lit "Str0ngPass1") 10,
    deletedAt := some 1700000000000 }

/-- An account holding an issued password-reset token whose expiry is epoch
millisecond 3600000. -/
def carolUser : UserRec :=
  { id := 3, firstName := "Carol", lastName := "C", username := "carol",
    email := "carol@example.com", password := SVal.bhash (SVal.lit "CurrentP4ss") 10,
    passwordResetToken := some "resettoken3", passwordResetTokenExpiresAt := some 3600000 }

/-- An account holding an issued password-reset token whose expiry is epoch
millisecond 7200000. -/
def dinaUser : UserRec :=
  { id := 4, firstName := "Dina", lastName := "D", username := "dina",
    email := "dina@example.com", password := SVal.bhash (SVal.lit "CurrentP4ss5") 10,
    passwordResetToken := some "resettoken4", passwordResetTokenExpiresAt := some 7200000 }

/-- A live account, used for token round-trip evaluation. -/
def eveUser : UserRec :=
  { id := 6, firstName := "Eve", lastName := "E", username := "eve",
    email := "eve@example.com", password := SVal.bhash (SVal.lit "EvePass123") 10 }

/-- A soft-deleted account with `_id` 7: `findUser` never returns it. -/
def gusDeleted : UserRec :=
  { id := 7, firstName := "Gus", lastName := "G", username := "gus",
    email := "gus@example.com", password := SVal.bhash (SVal.lit "GusPass123") 10,
    deletedAt := some 1690000000000 }

/-- A live account with `_id` 9. -/
def frankUser : UserRec :=
  { id := 9, firstName := "Frank", lastName := "F", username := "frank",
    email := "frank@example.com", password := SVal.bhash (SVal.lit "FrankPass12") 10 }

/-- A concrete stand-in for `jwt.verify` under which exactly the wire string
`"tok123"` is a valid token, bound to account id 7. -/
def c3Verify : String → JwtVerifyResult := fun s =>
  if s = "tok123" then JwtVerifyResult.ok 7 else JwtVerifyResult.malformed

/-- A concrete stand-in for `jwt.verify` under which exactly the wire string
`"cookietok"` is a valid token, bound to account id 9. -/
def c8Verify : String → JwtVerifyResult := fun s =>
  if s = "cookietok" then JwtVerifyResult.ok 9 else JwtVerifyResult.malformed

/-! Helper lemmas about the token-extraction step. -/

/-- Deleting the first occurrence of `pat` from `pat ++ l` leaves `l`: the
leftmost occurrence sits at the very front. -/
theorem dropFirstOccur_self_append (pat l : List Char) :
    dropFirstOccur pat (pat ++ l) = l := by
  match pat with
  | [] =>
    cases l with
    | nil => rfl
    | cons c rest => simp [dropFirstOccur]
  | p :: ps =>
    show dropFirstOccur (p :: ps) ((p :: ps) ++ l) = l
    rw [List.cons_append, dropFirstOccur, ← List.cons_append, List.take_left, List.drop_left]
    simp

/-- When `pat` does not occur, `String.replace` leaves the input unchanged. -/
theorem dropFirstOccur_of_not_occurs (pat : List Char) (l : List Char)
    (h : occursSub pat l = false) : dropFirstOccur pat l = l := by
  induction l with
  | nil => rfl
  | cons c rest ih =>
    rw [occursSub] at h
    rw [dropFirstOccur]
    split at h
    · exact absurd h (by simp)
    · next hne => rw [if_neg hne, ih h]

/-- `('Bearer ' ++ t).replace('Bearer ', '') = t`. -/
theorem stripBearer_bearer_append (t : String) : stripBearer ("Bearer " ++ t) = t := by
  show String.mk (dropFirstOccur bearerMarker ("Bearer " ++ t).toList) = t
  have h1 : ("Bearer " ++ t).toList = bearerMarker ++ t.toList := rfl
  rw [h1, dropFirstOccur_self_append]
  rfl

/-- The guard's extraction on a well-formed bearer header: the token after
the marker, or nothing when the remainder is empty. -/
theorem extractToken_bearer (t : String) (cj : Option String) :
    extractToken { authorization := some ("Bearer " ++ t), cookieJwt := cj }
      = if t = "" then none else some t := by
  show (if stripBearer ("Bearer " ++ t) = "" then none
        else some (stripBearer ("Bearer " ++ t)))
      = if t = "" then none else some t
  rw [stripBearer_bearer_append]

/-- A header in which `'Bearer '` never occurs is left unchanged by
extraction. -/
theorem stripBearer_of_not_occurs (h : String)
    (hn : occursSub bearerMarker h.toList = false) : stripBearer h = h := by
  show String.mk (dropFirstOccur bearerMarker h.toList) = h
  rw [dropFirstOccur_of_not_occurs _ _ hn]
  rfl

/-! Claim theorems. -/

/-- C1: the claim says that after any operation the stored password field
holds a hash and never the plaintext, and in particular that updating an
account's password through the user-update operation persists a hashed
value. The code contradicts this: `updateUser` goes through
`findByIdAndUpdate`, which fires neither the `save` nor the `updateOne`
pre-hook registered on the schema, so the caller-supplied plaintext is
written to the store verbatim. This theorem evaluates the embedded
`updateUser` at the failing input: the persisted password is the plaintext
literal, not a bcrypt digest. -/
theorem updateUser_persists_plaintext_password :
    updateUser 1 { password := some "NewStr0ngPass" } [adaUser]
      = [{ adaUser with password := SVal.lit "NewStr0ngPass" }] := by decide

/-- C2: the claim says that an account with non-null `deletedAt` can never
sign in, even with the correct password. The code contradicts this:
`signIn` looks the account up with `findOne({ email })`, without the
`deletedAt: null` filter used by every other auth lookup, so a soft-deleted
account with a matching password authenticates successfully. This theorem
evaluates the embedded `signIn` at the failing input: the stored account is
soft-deleted, the presented password matches the stored hash, and the result
is success rather than an `AuthenticationError`. -/
theorem signIn_accepts_soft_deleted_account :
    bobDeleted.deletedAt ≠ none ∧
    bcryptCompare "Str0ngPass1" bobDeleted.password = true ∧
    signIn [bobDeleted] "bob@example.com" "Str0ngPass1" = SignInResult.ok bobDeleted := by
  decide

/-- C3 counterexample: the claim says that when the bearer token verifies but
the account lookup misses, the Auth Gate rejects with 401 and does not invoke
the downstream handler. At this concrete input — an empty store, a header
carrying a token that verifies to account id 7 — the gate instead stores
`null` in `res.locals.user` and calls `next()`: the outcome is
`GateOutcome.next none`, not a rejection. -/
theorem authGuard_lookup_miss_passes_through :
    c3Verify "tok123" = JwtVerifyResult.ok 7 ∧
    findUser [] 7 = none ∧
    authGuard c3Verify [] { authorization := some "Bearer tok123", cookieJwt := none }
      = GateOutcome.next none := by decide

/-- C3 amended: for every request whose bearer token passes verification but
whose account lookup (which excludes soft-deleted accounts) finds no account,
the Auth Gate attaches `null` to the request context and invokes the
downstream handler; it does not respond 401. -/
theorem authGuard_lookup_miss_invokes_next (verifyTok : String → JwtVerifyResult)
    (store : Store) (req : AuthRequest) (t : String) (sub : Nat)
    (hx : extractToken req = some t) (hv : verifyTok t = JwtVerifyResult.ok sub)
    (hm : findUser store sub = none) :
    authGuard verifyTok store req = GateOutcome.next none := by
  simp [authGuard, hx, hv, hm]

/-- C3 witness: the amended statement at a concrete input — the store holds
only a soft-deleted account with the token's id, so the lookup misses. -/
theorem authGuard_lookup_miss_invokes_next_witness :
    authGuard c3Verify [gusDeleted] { authorization := some "Bearer tok123", cookieJwt := none }
      = GateOutcome.next none :=
  authGuard_lookup_miss_invokes_next c3Verify [gusDeleted]
    { authorization := some "Bearer tok123", cookieJwt := none } "tok123" 7
    (by decide) (by decide) (by decide)

/-- C4: the claim says a password-reset token consumed strictly after its
expiry fails with `ExpiredToken` and leaves the password unchanged. The code
diverges: `resetPassword` never reads `passwordResetTokenExpiresAt` — the
operation takes no clock at all, so its behaviour is identical at every
consumption time — and because its query omits `.select('+password')` on the
`select: false` password field, `comparePassword` runs
`bcrypt.compare(currentPassword, undefined)`, which rejects with a plain
`Error('data and hash arguments required')`, surfaced as a 500 — not as any
`ExpiredToken` outcome. This theorem evaluates the embedded operation at the
failing input (token expired at epoch millisecond 3600000, consumed at any
later time such as 7200000, correct current password): the result is the
raised bcrypt error. Only the `ok` outcome carries a modified store, so the
password is indeed left unchanged — but by an accident of the broken compare,
not by the claimed expiry check. -/
theorem resetPassword_raises_before_expiry_check :
    carolUser.passwordResetTokenExpiresAt = some 3600000 ∧
    bcryptCompare "CurrentP4ss" carolUser.password = true ∧
    resetPassword [carolUser] "CurrentP4ss" "NewP4ssword" "resettoken3" 12
      = ResetOutcome.raisedError "data and hash arguments required" := by decide

/-- C5: the invariant — `passwordResetToken` is non-null iff
`passwordResetTokenExpiresAt` is non-null, and likewise for the
email-verification pair — is preserved by every embedded operation on an
account record: both issuance helpers set token and expiry together; the
user-update `$set` and the save-time hashing hook never touch the four
fields; and `resetPassword` — the only code that would clear a token — never
reaches its mutation path (its current-password comparison raises first, see
C4), returning one of its two failure outcomes and leaving the store as it
was. In particular no consumption ever succeeds, so no operation separates a
token from its expiry. -/
theorem tokenPair_invariant_preserved (u : UserRec) (d : IUserUpdateDTO)
    (tok : String) (now salt : Nat) (passwordModified : Bool)
    (store : Store) (currentPassword newPassword presentedToken : String)
    (hu : tokenPairInvariant u) :
    tokenPairInvariant (generatePasswordResetToken tok now u) ∧
    tokenPairInvariant (generateEmailVerificationToken tok now u) ∧
    tokenPairInvariant (applyUserUpdate u d) ∧
    tokenPairInvariant (hashPassword passwordModified salt u) ∧
    (resetPassword store currentPassword newPassword presentedToken salt
        = ResetOutcome.err (authenticationError "Invalid password reset token") ∨
     resetPassword store currentPassword newPassword presentedToken salt
        = ResetOutcome.raisedError "data and hash arguments required") := by
  refine ⟨⟨by simp [generatePasswordResetToken], hu.2⟩,
          ⟨hu.1, by simp [generateEmailVerificationToken]⟩, hu, ?_, ?_⟩
  · cases passwordModified with
    | false => exact hu
    | true => exact hu
  · cases hf : store.find? (fun v => v.passwordResetToken == some presentedToken) with
    | none => left; simp [resetPassword, hf]
    | some v => right; simp [resetPassword, hf, bcryptCompareOnDoc]

/-- C5 witness: the preservation statement at a concrete invariant-satisfying
account and a concrete consumption attempt on a store holding a matching
reset token. -/
theorem tokenPair_invariant_preserved_witness :
    tokenPairInvariant (generatePasswordResetToken "freshtok" 0 frankUser) ∧
    tokenPairInvariant (generateEmailVerificationToken "freshtok" 0 frankUser) ∧
    tokenPairInvariant (applyUserUpdate frankUser { password := some "NewStr0ngPass9" }) ∧
    tokenPairInvariant (hashPassword true 11 frankUser) ∧
    (resetPassword [dinaUser] "CurrentP4ss5" "NewP4ssword5" "resettoken4" 11
        = ResetOutcome.err (authenticationError "Invalid password reset token") ∨
     resetPassword [dinaUser] "CurrentP4ss5" "NewP4ssword5" "resettoken4" 11
        = ResetOutcome.raisedError "data and hash arguments required") :=
  tokenPair_invariant_preserved frankUser { password := some "NewStr0ngPass9" } "freshtok"
    0 11 true [dinaUser] "CurrentP4ss5" "NewP4ssword5" "resettoken4"
    (by refine ⟨?_, ?_⟩ <;> simp [frankUser])

/-- C6: for every account and process secret, verifying the session token
immediately after `generateJWT` issues it (default `expiresIn` of one day)
returns the same account id, and verifying the same token at any time
strictly after its `expiresAt` fails with the `TokenExpired` outcome. -/
theorem jwt_roundtrip_and_expiry (u : UserRec) (secret : String) (now : Nat) :
    jwtVerify (generateJWT u secret now oneDayInSeconds) secret now = JwtVerifyResult.ok u.id ∧
    ∀ later : Nat, now + oneDayInSeconds < later →
      jwtVerify (generateJWT u secret now oneDayInSeconds) secret later
        = JwtVerifyResult.tokenExpired := by
  constructor
  · simp [generateJWT, jwtSign, jwtVerify, oneDayInSeconds]
  · intro later hlater
    simp only [generateJWT, jwtSign, jwtVerify, oneDayInSeconds] at hlater ⊢
    rw [if_neg (by simp), if_pos (by omega)]

/-- C6 witness: the round trip and the expiry outcome at a concrete account,
secret and clock (issued at second 1000, expires at 87400, checked at
90000). -/
theorem jwt_roundtrip_and_expiry_witness :
    jwtVerify (generateJWT eveUser "s3cret" 1000 oneDayInSeconds) "s3cret" 1000
      = JwtVerifyResult.ok eveUser.id ∧
    jwtVerify (generateJWT eveUser "s3cret" 1000 oneDayInSeconds) "s3cret" 90000
      = JwtVerifyResult.tokenExpired :=
  ⟨(jwt_roundtrip_and_expiry eveUser "s3cret" 1000).1,
   (jwt_roundtrip_and_expiry eveUser "s3cret" 1000).2 90000 (by decide)⟩

/-- C7 counterexample: the claim says an error belonging to the taxonomy
surfaces its own status and message. At this concrete input — a
`DatabaseError`, which carries status 500 — the handler keeps the status but
replaces the error's own message with the generic text, so the claim as
stated is false. -/
theorem errorHandler_hides_taxonomy_500_message :
    errMessage (JsError.operational (databaseError "connection to replica set lost"))
      = "connection to replica set lost" ∧
    errorToRestStatus (JsError.operational (databaseError "connection to replica set lost"))
      = 500 ∧
    errorHandler (JsError.operational (databaseError "connection to replica set lost"))
      = (500, "Internal server error") := by decide

/-- C7 amended: a taxonomy error surfaces its own status, and its own message
exactly when that status is not 500; non-taxonomy type/format/URI errors map
to 400 with their own message; every other error maps to 500; and every 500
response — taxonomy or not — carries the generic internal-server-error text,
never the error's original message. -/
theorem errorHandler_mapping (e : JsError) :
    (∀ d : OperationErrorData, e = JsError.operational d →
        errorHandler e
          = (d.httpStatus, if d.httpStatus ≠ 500 then d.message else "Internal server error")) ∧
    (∀ m : String,
        e = JsError.typeError m ∨ e = JsError.dbValidationError m ∨ e = JsError.uriError m →
        errorHandler e = (400, m)) ∧
    (∀ m : String, e = JsError.other m → errorHandler e = (500, "Internal server error")) ∧
    ((errorHandler e).1 = 500 → (errorHandler e).2 = "Internal server error") := by
  refine ⟨?_, ?_, ?_, ?_⟩
  · rintro d rfl
    rfl
  · rintro m (rfl | rfl | rfl) <;> rfl
  · rintro m rfl
    rfl
  · intro h5
    cases e with
    | operational d =>
      simp only [errorHandler, errorToRestStatus] at h5 ⊢
      rw [if_neg (by omega)]
    | typeError m => simp [errorHandler, errorToRestStatus] at h5
    | dbValidationError m => simp [errorHandler, errorToRestStatus] at h5
    | uriError m => simp [errorHandler, errorToRestStatus] at h5
    | other m => rfl

/-- C7 witness: the amended mapping at concrete errors — a raw `TypeError`
surfaces 400 with its own message, and an unclassified error surfaces 500
with the generic text. -/
theorem errorHandler_mapping_witness :
    errorHandler (JsError.typeError "Cannot read properties of undefined")
      = (400, "Cannot read properties of undefined") ∧
    errorHandler (JsError.other "socket hang up") = (500, "Internal server error") :=
  ⟨(errorHandler_mapping (JsError.typeError "Cannot read properties of undefined")).2.1
      "Cannot read properties of undefined" (Or.inl rfl),
   (errorHandler_mapping (JsError.other "socket hang up")).2.2.1 "socket hang up" rfl⟩

/-- C8 counterexample: the claim says a valid session token carried either in
the `Authorization` header or in the `jwt` cookie is accepted by the Auth
Gate. At this concrete input — no `Authorization` header, a valid token for
an existing live account in the `jwt` cookie — the gate rejects with 401:
the middleware never reads the cookie. -/
theorem authGuard_ignores_jwt_cookie :
    c8Verify "cookietok" = JwtVerifyResult.ok 9 ∧
    findUser [frankUser] 9 = some frankUser ∧
    authGuard c8Verify [frankUser] { authorization := none, cookieJwt := some "cookietok" }
      = GateOutcome.reject 401 "Unauthorized" := by decide

/-- C8 amended: only the `Authorization: Bearer <token>` transport is
accepted by the Auth Gate's extraction step — a valid token there verifies
and passes through with the account attached; a request without the header is
rejected with 401 whatever the `jwt` cookie holds, because the gate's outcome
never depends on the cookie. -/
theorem authGuard_accepts_header_only (verifyTok : String → JwtVerifyResult) (store : Store)
    (cj cj2 : Option String) (t : String) (sub : Nat) (u : UserRec)
    (ht : t ≠ "") (hv : verifyTok t = JwtVerifyResult.ok sub)
    (hu : findUser store sub = some u) :
    authGuard verifyTok store { authorization := some ("Bearer " ++ t), cookieJwt := cj }
      = GateOutcome.next (some u) ∧
    authGuard verifyTok store { authorization := none, cookieJwt := cj2 }
      = GateOutcome.reject 401 "Unauthorized" ∧
    ∀ a : Option String,
      authGuard verifyTok store { authorization := a, cookieJwt := cj }
        = authGuard verifyTok store { authorization := a, cookieJwt := cj2 } := by
  refine ⟨?_, rfl, fun a => rfl⟩
  simp [authGuard, extractToken_bearer, ht, hv, hu]

/-- C8 witness: the amended statement at a concrete valid header token and a
one-account store. -/
theorem authGuard_accepts_header_only_witness :
    authGuard c8Verify [frankUser]
        { authorization := some "Bearer cookietok", cookieJwt := none }
      = GateOutcome.next (some frankUser) :=
  (authGuard_accepts_header_only c8Verify [frankUser] none (some "irrelevant") "cookietok" 9
    frankUser (by decide) (by decide) (by decide)).1

/-- C10: the Auth Gate extracts the token by deleting the first occurrence of
the substring `'Bearer '` from the `Authorization` header: an absent header
and a header equal to exactly `'Bearer '` (empty remainder) are both rejected
with 401 before any handler runs; a header of the form `'Bearer ' ++ t`
yields exactly `t`; and a header in which `'Bearer '` does not occur is used
verbatim as the token. -/
theorem authGuard_token_extraction (verifyTok : String → JwtVerifyResult) (store : Store)
    (cj : Option String) :
    authGuard verifyTok store { authorization := none, cookieJwt := cj }
      = GateOutcome.reject 401 "Unauthorized" ∧
    authGuard verifyTok store { authorization := some "Bearer ", cookieJwt := cj }
      = GateOutcome.reject 401 "Unauthorized" ∧
    (∀ t : String,
        extractToken { authorization := some ("Bearer " ++ t), cookieJwt := cj }
          = if t = "" then none else some t) ∧
    (∀ h : String, occursSub bearerMarker h.toList = false → h ≠ "" →
        extractToken { authorization := some h, cookieJwt := cj } = some h) := by
  refine ⟨rfl, rfl, fun t => extractToken_bearer t cj, ?_⟩
  intro h hn hne
  show (if stripBearer h = "" then none else some (stripBearer h)) = some h
  rw [stripBearer_of_not_occurs h hn, if_neg hne]

/-- C10 witness: extraction at two concrete headers — a bearer header
yielding the token after the marker, and a marker-free header used
verbatim. -/
theorem authGuard_token_extraction_witness :
    extractToken { authorization := some "Bearer abc123", cookieJwt := none } = some "abc123" ∧
    extractToken { authorization := some "rawtoken", cookieJwt := none } = some "rawtoken" := by
  have h := authGuard_token_extraction (fun _ => JwtVerifyResult.malformed) [] none
  constructor
  · have h3 := h.2.2.1 "abc123"
    rw [show ("Bearer " ++ "abc123" : String) = "Bearer abc123" from rfl] at h3
    rw [h3, if_neg (by decide)]
  · exact h.2.2.2 "rawtoken" (by decide) (by decide)

/-- C9: refreshing and issuing are the same function of the account, the
process secret and the expiry parameter — `refreshJWT` produces exactly the
token `generateJWT` produces (same payload), and the two operations share the
same default ttl of one day. -/
theorem refreshJWT_eq_generateJWT (u : UserRec) (secret : String) (now expiresInSec : Nat) :
    refreshJWT u secret now expiresInSec = generateJWT u secret now expiresInSec ∧
    refreshJWTDefaultExpiresIn = oneDayInSeconds ∧
    generateJWTDefaultExpiresIn = oneDayInSeconds := ⟨rfl, rfl, rfl⟩
